import Mathlib

/-!
Shallow embedding of `src/index.js` (Rovo-Pizza-Runner): a JS value model,
the pure helpers (`assertString`, `normalizeServiceMethod`, `buildStreetName`,
`buildAddress`, `buildProducts`, `summarizeQuote`, store selection), the retry
loop of `dominosFetchJson`, and the two stateful actions `quotePizzaOrder` /
`placePizzaOrder` as explicit state-passing functions over a trace of network
and storage effects. All recursion is structural so closed applications
evaluate inside the kernel.
-/

set_option maxHeartbeats 1000000

set_option maxRecDepth 16384

/-- Finite JS numbers, as unreduced fractions (denominator positive by
construction at every use site; values are compared to zero, floored and
rendered, never tested for cross-representation equality, mirroring how the
source uses numbers). -/
structure JsRat where
  n : Int
  d : Nat
deriving Repr, DecidableEq

def JsRat.ofNat (n : Nat) : JsRat := ⟨n, 1⟩

def JsRat.ofInt (n : Int) : JsRat := ⟨n, 1⟩

def JsRat.isZero (q : JsRat) : Bool := q.n == 0

/-- `q <= 0` (the denominator is positive in every value this code builds). -/
def JsRat.nonPos (q : JsRat) : Bool := q.n ≤ 0

def JsRat.neg (q : JsRat) : JsRat := ⟨-q.n, q.d⟩

def JsRat.add (a b : JsRat) : JsRat := ⟨a.n * b.d + b.n * a.d, a.d * b.d⟩

def JsRat.mulPow10 (a : JsRat) (k : Nat) : JsRat := ⟨a.n * ((10 : Nat) ^ k : Nat), a.d⟩

def JsRat.divPow10 (a : JsRat) (k : Nat) : JsRat := ⟨a.n, a.d * 10 ^ k⟩

/-- `Math.floor`. -/
def JsRat.floor (q : JsRat) : Int := Int.fdiv q.n q.d

/-- JavaScript runtime values as they occur in this program: JSON data plus
`undefined`, `NaN` and the signed infinities (which numeric-literal overflow
in `JSON.parse` and `Number()` produces). -/
inductive JsVal where
  | null
  | undefined
  | bool (b : Bool)
  | num (q : JsRat)
  | nan
  | inf (neg : Bool)
  | str (s : String)
  | arr (elems : List JsVal)
  | obj (fields : List (String × JsVal))
deriving Repr

/-- JS truthiness: `null`, `undefined`, `false`, `0`, `NaN` and `""` are falsy;
objects and arrays are always truthy. -/
def truthy : JsVal → Bool
  | .null => false
  | .undefined => false
  | .bool b => b
  | .num q => !q.isZero
  | .nan => false
  | .inf _ => true
  | .str s => !(s == "")
  | .arr _ => true
  | .obj _ => true

/-- `v == null` in JS (loose), i.e. `null` or `undefined`. -/
def isNullish : JsVal → Bool
  | .null => true
  | .undefined => true
  | _ => false

/-- Property access `v?.k` / `v.k`: field of an object, `undefined` otherwise
(the source only dereferences values it has checked or optional-chained). -/
def getField (v : JsVal) (k : String) : JsVal :=
  match v with
  | .obj fields =>
    match fields.find? (fun f => f.1 == k) with
    | some f => f.2
    | none => .undefined
  | _ => .undefined

/-- Whether an object value carries the field `k` ("the field is present"). -/
def hasField (v : JsVal) (k : String) : Bool :=
  match v with
  | .obj fields => fields.any (fun f => f.1 == k)
  | _ => false

/-- `Array.isArray(v) ? v : none`. -/
def asArray? : JsVal → Option (List JsVal)
  | .arr xs => some xs
  | _ => none

/-- JS `a || b`. -/
def jsOr (a b : JsVal) : JsVal := if truthy a then a else b

/-- JS `a ?? b`. -/
def jsCoalesce (a b : JsVal) : JsVal := if isNullish a then b else a

/-- `v === 0` (strict equality against the number literal 0). -/
def isNumZero : JsVal → Bool
  | .num q => q.isZero
  | _ => false

/-- `v === '0'` (strict equality against the string literal "0"). -/
def isStrZero : JsVal → Bool
  | .str s => s == "0"
  | _ => false

/-- `v === true` (strict equality against the boolean literal true). -/
def isTrueLit : JsVal → Bool
  | .bool b => b
  | _ => false

/-! ### String helpers (structural replacements for JS string methods) -/

/-- The whitespace class JS `trim` and `\s` use (restricted to the ASCII
whitespace that actually occurs in this program's data). -/
def wsChar (c : Char) : Bool := c == ' ' || c == '\t' || c == '\n' || c == '\r'

def trimChars (l : List Char) : List Char :=
  ((l.dropWhile wsChar).reverse.dropWhile wsChar).reverse

/-- JS `s.trim()`. -/
def jsTrim (s : String) : String := String.mk (trimChars s.data)

def upChar (c : Char) : Char :=
  if 'a' ≤ c && c ≤ 'z' then Char.ofNat (c.toNat - 32) else c

/-- JS `s.toUpperCase()` (ASCII). -/
def jsToUpper (s : String) : String := String.mk (s.data.map upChar)

def jsLowChar (c : Char) : Char :=
  if 'A' ≤ c && c ≤ 'Z' then Char.ofNat (c.toNat + 32) else c

/-- Rendering of a finite JS number as a string. Integer values render as
their decimal digits; non-integer rationals (which no code path in this
repository stringifies) render in `n/d` form as an approximation of JS float
formatting. -/
def ratToJsString (q : JsRat) : String :=
  if q.d = 1 then toString q.n
  else if q.n % (q.d : Int) == 0 then toString (q.n / (q.d : Int))
  else toString q.n ++ "/" ++ toString q.d

def joinWithComma : List String → String
  | [] => ""
  | [s] => s
  | s :: rest => s ++ "," ++ joinWithComma rest

/-- JS `String(v)` with an explicit fuel bounding array-nesting depth (array
elements join with ","; `null`/`undefined` elements render empty, as in
`Array.prototype.toString`). -/
def jsToStringF : Nat → JsVal → String
  | fuel, v =>
    match v with
    | .null => "null"
    | .undefined => "undefined"
    | .bool b => cond b "true" "false"
    | .nan => "NaN"
    | .inf b => cond b "-Infinity" "Infinity"
    | .num q => ratToJsString q
    | .str s => s
    | .obj _ => "[object Object]"
    | .arr xs =>
      match fuel with
      | 0 => ""
      | fuel + 1 =>
        joinWithComma
          (xs.map (fun e =>
            match e with
            | .null => ""
            | .undefined => ""
            | e => jsToStringF fuel e))

/-- JS `String(v)` (no value in this development nests arrays 100 deep). -/
def jsToString (v : JsVal) : String := jsToStringF 100 v

def digitsVal (l : List Char) : Nat :=
  l.foldl (fun a c => a * 10 + (c.toNat - 48)) 0

def allDigits (l : List Char) : Bool := l.all Char.isDigit

def hexVal (c : Char) : Option Nat :=
  if '0' ≤ c && c ≤ '9' then some (c.toNat - 48)
  else if 'a' ≤ c && c ≤ 'f' then some (c.toNat - 87)
  else if 'A' ≤ c && c ≤ 'F' then some (c.toNat - 55)
  else none

/-- An exact literal magnitude that IEEE-754 double rounding (to nearest,
ties to even) turns into ±Infinity: `|q| ≥ 2^1024 − 2^970`. -/
def dblOverflows (q : JsRat) : Bool := q.n.natAbs ≥ ((2 : Nat) ^ 1024 - 2 ^ 970) * q.d

/-- An exact literal magnitude that double rounding turns into ±0:
`|q| ≤ 2^−1075`. Between the saturation bounds rounding preserves sign,
zeroness and finiteness — everything the embedded code observes of a parsed
number apart from `Math.floor`, whose sub-ulp deviations no claim touches. -/
def dblUnderflows (q : JsRat) : Bool := q.n.natAbs * 2 ^ 1075 ≤ q.d

/-- Saturate an exactly-parsed finite literal for `Number()`: `none` stands
for a non-finite result (overflow to ±Infinity), underflow collapses to 0. -/
def fitNumber (q : JsRat) : Option JsRat :=
  if dblOverflows q then none
  else if dblUnderflows q then some ⟨0, 1⟩
  else some q

/-- The value `JSON.parse` yields for an exact numeric literal: ±Infinity on
overflow, ±0 on underflow, the exact value otherwise. -/
def jsonNumVal (q : JsRat) : JsVal :=
  if dblOverflows q then .inf (q.n < 0)
  else if dblUnderflows q then .num ⟨0, 1⟩
  else .num q

/-- The digits of a `0x`/`0o`/`0b` integer literal in base `b` (`none` on an
invalid digit). -/
def digitsValBase (b : Nat) (l : List Char) : Option Nat :=
  l.foldl
    (fun acc c =>
      match acc, hexVal c with
      | some a, some v => if v < b then some (a * b + v) else none
      | _, _ => none)
    (some 0)

/-- A JS non-decimal numeric string (`0x…`, `0o…`, `0b…`, case-insensitive;
no sign allowed before these in `Number()`'s grammar). -/
def parseNonDecimal (l : List Char) : Option Nat :=
  match l with
  | '0' :: c :: ds =>
    let base : Option Nat :=
      if c == 'x' || c == 'X' then some 16
      else if c == 'o' || c == 'O' then some 8
      else if c == 'b' || c == 'B' then some 2
      else none
    (match base with
     | none => none
     | some b => if ds.isEmpty then none else digitsValBase b ds)
  | _ => none

/-- Parse the digits/fraction/exponent body of a JS numeric string (after the
optional sign): `123`, `1.5`, `.5`, `5.`, `1e3`, `1.2e-3`, ... -/
def parseDecBody (l : List Char) : Option JsRat :=
  let (mant, expPart) :=
    match l.span (fun c => !(c == 'e' || c == 'E')) with
    | (m, []) => (m, (some 0 : Option Int))
    | (m, _ :: rest) =>
      let (sgn, ds) :=
        match rest with
        | '+' :: ds => ((1 : Int), ds)
        | '-' :: ds => ((-1 : Int), ds)
        | ds => ((1 : Int), ds)
      if ds ≠ [] && allDigits ds then (m, some (sgn * (digitsVal ds : Int))) else (m, none)
  match expPart with
  | none => none
  | some e =>
    let (ip, rest) := mant.span Char.isDigit
    let fpOk :=
      match rest with
      | [] => some ([] : List Char)
      | '.' :: fp => if allDigits fp then some fp else none
      | _ => none
    match fpOk with
    | none => none
    | some fp =>
      if ip = [] && fp = [] then none
      else
        let base := (JsRat.ofNat (digitsVal ip)).add ((JsRat.ofNat (digitsVal fp)).divPow10 fp.length)
        some (if e ≥ 0 then base.mulPow10 e.toNat else base.divPow10 (-e).toNat)

/-- JS string-to-number coercion: trims, empty string is 0, an unsigned
`0x`/`0o`/`0b` literal in its base, otherwise an optionally signed decimal
literal, each saturated at the double range; anything else (including
`Infinity`, which is not finite anyway) maps to `none`, standing for a
non-finite result. -/
def strToNumberJs (s : String) : Option JsRat :=
  let t := jsTrim s
  if t = "" then some (JsRat.ofNat 0)
  else
    match parseNonDecimal t.data with
    | some n => fitNumber ⟨(n : Int), 1⟩
    | none =>
      match t.data with
      | '-' :: rest => ((parseDecBody rest).map JsRat.neg).bind fitNumber
      | '+' :: rest => (parseDecBody rest).bind fitNumber
      | l => (parseDecBody l).bind fitNumber

/-- JS `Number(v)` restricted to finite results: `none` models `NaN`/`±Infinity`
(the source only ever asks `Number.isFinite` and compares against 0, so the
two non-finite kinds need not be distinguished). Arrays and objects coerce
through their string rendering. -/
def toNumber : JsVal → Option JsRat
  | .null => some (JsRat.ofNat 0)
  | .undefined => none
  | .bool b => some (JsRat.ofNat (if b then 1 else 0))
  | .num q => some q
  | .nan => none
  | .inf _ => none
  | .str s => strToNumberJs s
  | .arr xs => strToNumberJs (jsToString (.arr xs))
  | .obj _ => none

/-- Errors thrown by the embedded code: `UserError`s (by message) and the
error `dominosFetchJson` raises on a failed request (carrying `status` and the
parsed `data`; the human-readable message adds nothing distinguishable). -/
inductive Err where
  | user (msg : String)
  | request (status : Nat) (data : JsVal)
deriving Repr

/-- `assertString(value, name)`. -/
def assertString (value : JsVal) (name : String) : Except Err String :=
  match value with
  | .str s =>
    if jsTrim s = "" then .error (.user (name ++ " is required and must be a non-empty string."))
    else .ok (jsTrim s)
  | _ => .error (.user (name ++ " is required and must be a non-empty string."))

/-- `assertOptionalString(value)`: `undefined` for anything but a non-blank
string. -/
def assertOptionalString (value : JsVal) : Option String :=
  match value with
  | .str s => if jsTrim s = "" then none else some (jsTrim s)
  | _ => none

/-- `normalizeServiceMethod(serviceMethod)`: falsy input defaults to
`'DELIVERY'`; the value is stringified, trimmed and upper-cased, then matched
against `DELIVERY`/`CARRYOUT`. -/
def normalizeServiceMethod (serviceMethod : JsVal) : Except Err String :=
  let raw := jsToUpper (jsTrim (jsToString (jsOr serviceMethod (.str "DELIVERY"))))
  if raw = "DELIVERY" then .ok "Delivery"
  else if raw = "CARRYOUT" then .ok "Carryout"
  else .error (.user ("serviceMethod must be DELIVERY or CARRYOUT (got " ++ raw ++ ")."))

/-! ### JSON parsing (`JSON.parse`, used by `safeJsonParse`) -/

def skipWs (l : List Char) : List Char := l.dropWhile wsChar

/-- Body of a JSON string literal (opening quote already consumed), with the
standard escapes. Returns the decoded characters and the rest of the input. -/
def parseJsonStringGo (acc : List Char) : List Char → Option (List Char × List Char)
  | [] => none
  | '"' :: rest => some (acc.reverse, rest)
  | '\\' :: rest =>
    match rest with
    | [] => none
    | 'u' :: a :: b :: c :: d :: r =>
      match hexVal a, hexVal b, hexVal c, hexVal d with
      | some x1, some x2, some x3, some x4 =>
        parseJsonStringGo (Char.ofNat (((x1 * 16 + x2) * 16 + x3) * 16 + x4) :: acc) r
      | _, _, _, _ => none
    | e :: r =>
      match e with
      | '"' => parseJsonStringGo ('"' :: acc) r
      | '\\' => parseJsonStringGo ('\\' :: acc) r
      | '/' => parseJsonStringGo ('/' :: acc) r
      | 'b' => parseJsonStringGo (Char.ofNat 8 :: acc) r
      | 'f' => parseJsonStringGo (Char.ofNat 12 :: acc) r
      | 'n' => parseJsonStringGo ('\n' :: acc) r
      | 'r' => parseJsonStringGo ('\r' :: acc) r
      | 't' => parseJsonStringGo ('\t' :: acc) r
      | _ => none
  | c :: rest => parseJsonStringGo (c :: acc) rest

/-- A JSON number literal at the head of the input, rounded to the double
range like `JSON.parse` (overflow yields ±Infinity, underflow ±0). -/
def parseJsonNumber (l : List Char) : Option (JsVal × List Char) :=
  let (neg, l1) := match l with | '-' :: r => (true, r) | _ => (false, l)
  let (ip, l2) := l1.span Char.isDigit
  if ip.isEmpty then none
  else if ip.length > 1 && ip.head? = some '0' then none
  else
    let (fpOpt, l3) :=
      match l2 with
      | '.' :: r =>
        let (f, r') := r.span Char.isDigit
        (if f.isEmpty then none else some f, r')
      | _ => (some [], l2)
    match fpOpt with
    | none => none
    | some fp =>
      let (exOpt, l4) :=
        match l3 with
        | c :: r =>
          if c == 'e' || c == 'E' then
            let (sgn, r1) :=
              match r with
              | '+' :: r2 => ((1 : Int), r2)
              | '-' :: r2 => ((-1 : Int), r2)
              | _ => ((1 : Int), r)
            let (eds, r2) := r1.span Char.isDigit
            if eds.isEmpty then ((none : Option Int), l3)
            else (some (sgn * (digitsVal eds : Int)), r2)
          else ((some 0 : Option Int), l3)
        | [] => ((some 0 : Option Int), l3)
      match exOpt with
      | none => none
      | some e =>
        let base := (JsRat.ofNat (digitsVal ip)).add ((JsRat.ofNat (digitsVal fp)).divPow10 fp.length)
        let v := if e ≥ 0 then base.mulPow10 e.toNat else base.divPow10 (-e).toNat
        some (jsonNumVal (if neg then v.neg else v), l4)

/-- Insert a key into an object's field list with JS assignment semantics:
an existing key keeps its position and gets the new value, a new key is
appended. -/
def objInsert (fields : List (String × JsVal)) (k : String) (v : JsVal) : List (String × JsVal) :=
  if fields.any (fun f => f.1 == k) then fields.map (fun f => if f.1 == k then (k, v) else f)
  else fields ++ [(k, v)]

/-- Parser mode: a single value, the remaining elements of an array, or the
remaining members of an object. -/
inductive PMode where
  | val
  | elems (acc : List JsVal)
  | members (acc : List (String × JsVal))

/-- Fuel-based JSON parser core (fuel is structural, so closed applications
evaluate inside the kernel). -/
def parseJson : Nat → PMode → List Char → Option (JsVal × List Char)
  | 0, _, _ => none
  | fuel + 1, .val, l =>
    match l with
    | 'n' :: 'u' :: 'l' :: 'l' :: r => some (.null, r)
    | 't' :: 'r' :: 'u' :: 'e' :: r => some (.bool true, r)
    | 'f' :: 'a' :: 'l' :: 's' :: 'e' :: r => some (.bool false, r)
    | '"' :: r => (parseJsonStringGo [] r).map (fun p => (.str (String.mk p.1), p.2))
    | '[' :: r =>
      (match skipWs r with
       | ']' :: r' => some (.arr [], r')
       | r' => parseJson fuel (.elems []) r')
    | '{' :: r =>
      (match skipWs r with
       | '}' :: r' => some (.obj [], r')
       | r' => parseJson fuel (.members []) r')
    | _ => parseJsonNumber l
  | fuel + 1, .elems acc, l =>
    match parseJson fuel .val (skipWs l) with
    | none => none
    | some (v, r) =>
      match skipWs r with
      | ',' :: r' => parseJson fuel (.elems (v :: acc)) r'
      | ']' :: r' => some (.arr (v :: acc).reverse, r')
      | _ => none
  | fuel + 1, .members acc, l =>
    match skipWs l with
    | '"' :: r =>
      (match parseJsonStringGo [] r with
       | none => none
       | some (k, r1) =>
         match skipWs r1 with
         | ':' :: r2 =>
           (match parseJson fuel .val (skipWs r2) with
            | none => none
            | some (v, r3) =>
              let acc' := objInsert acc (String.mk k) v
              match skipWs r3 with
              | ',' :: r4 => parseJson fuel (.members acc') r4
              | '}' :: r4 => some (.obj acc', r4)
              | _ => none)
         | _ => none)
    | _ => none

/-- `JSON.parse(s)`: `none` models a thrown `SyntaxError`. -/
def jsonParse (s : String) : Option JsVal :=
  match parseJson (2 * s.length + 2) .val (skipWs s.data) with
  | some (v, r) => if (skipWs r).isEmpty then some v else none
  | none => none

/-- `safeJsonParse(str, name)`. -/
def safeJsonParse (s : String) (name : String) : Except Err JsVal :=
  match jsonParse s with
  | some v => .ok v
  | none => .error (.user (name ++ " must be valid JSON."))

/-! ### Address and line-item normalization -/

/-- `s.replace(/^\s*\d+\s+/, '')`: drop a leading run of whitespace, digits and
whitespace when the whole pattern is present. -/
def stripLeadingNumber (cs : List Char) : List Char :=
  let r1 := cs.dropWhile wsChar
  let (ds, r2) := r1.span Char.isDigit
  let (w2, r3) := r2.span wsChar
  if !ds.isEmpty && !w2.isEmpty then r3 else cs

/-- Case-insensitive test that `cs` starts with `pat` (an upper-case pattern). -/
def startsWithCI (pat : String) (cs : List Char) : Bool :=
  (cs.take pat.length).map upChar == pat.data

/-- The alternation `APT|APARTMENT|UNIT|STE|SUITE|#` as a head test (`APT`
already covers `APARTMENT` as a prefix; everything after the marker is
discarded by the regex's `.*$`). -/
def unitMarkerAt (cs : List Char) : Bool :=
  startsWithCI "APT" cs || startsWithCI "UNIT" cs || startsWithCI "STE" cs ||
    startsWithCI "SUITE" cs || startsWithCI "#" cs

/-- `s.replace(/\s+(APT|APARTMENT|UNIT|STE|SUITE|#)\s*.*$/i, '')`: cut the
string at the leftmost whitespace run directly followed by a unit marker. -/
def stripUnitMarker : List Char → List Char
  | [] => []
  | c :: rest =>
    if wsChar c && unitMarkerAt (rest.dropWhile wsChar) then []
    else c :: stripUnitMarker rest

/-- `buildStreetName(line1)`. -/
def buildStreetName (line1 : String) : String :=
  let s := jsTrim line1
  let withoutNumber := String.mk (stripLeadingNumber s.data)
  let withoutUnit := jsTrim (String.mk (stripUnitMarker withoutNumber.data))
  if withoutUnit = "" then s else withoutUnit

/-- `buildAddress({addressLine1, addressLine2, city, region, postalCode})`,
returning the upstream-shaped address object. -/
def buildAddress (addressLine1 addressLine2 city region postalCode : JsVal) :
    Except Err JsVal :=
  match assertString addressLine1 "addressLine1" with
  | .error e => .error e
  | .ok line1 =>
    let line2 := assertOptionalString addressLine2
    let street := match line2 with | some l2 => line1 ++ " " ++ l2 | none => line1
    match assertString city "city" with
    | .error e => .error e
    | .ok c =>
      match assertString region "region" with
      | .error e => .error e
      | .ok r =>
        match assertString postalCode "postalCode" with
        | .error e => .error e
        | .ok pc =>
          .ok (.obj
            [("Street", .str street),
             ("StreetName", .str (buildStreetName line1)),
             ("City", .str (jsToUpper c)),
             ("Region", .str (jsToUpper r)),
             ("PostalCode", .str pc),
             ("Type", .str (if line2.isSome then "Apartment" else "House"))])

/-- `typeof p === 'object'` (objects, arrays and `null`). -/
def isObjectTy : JsVal → Bool
  | .obj _ => true
  | .arr _ => true
  | .null => true
  | _ => false

/-- The own enumerable fields `{...p}` spreads (array spread yields indexed
keys; primitives spread nothing). -/
def spreadFields : JsVal → List (String × JsVal)
  | .obj fs => fs
  | .arr xs => xs.enum.map (fun p => (toString p.1, p.2))
  | _ => []

/-- One element of `buildProducts`' map: validation and normalization of the
item at index `idx`. -/
def buildProduct (idx : Nat) (p : JsVal) : Except Err JsVal :=
  if !truthy p || !isObjectTy p then
    .error (.user ("itemsJson[" ++ toString idx ++ "] must be an object."))
  else
    match getField p "Code" with
    | .str code =>
      if jsTrim code = "" then
        .error (.user ("itemsJson[" ++ toString idx ++ "].Code is required."))
      else
        match toNumber (getField p "Qty") with
        | none => .error (.user ("itemsJson[" ++ toString idx ++ "].Qty must be a positive number."))
        | some qty =>
          if qty.nonPos then
            .error (.user ("itemsJson[" ++ toString idx ++ "].Qty must be a positive number."))
          else
            let f1 := objInsert (spreadFields p) "Code" (.str (jsTrim code))
            let f2 := objInsert f1 "Qty" (.num (JsRat.ofInt qty.floor))
            let f3 := objInsert f2 "ID" (jsCoalesce (getField p "ID") (.num (JsRat.ofNat (idx + 1))))
            let f4 := objInsert f3 "isNew" (jsCoalesce (getField p "isNew") (.bool false))
            .ok (.obj f4)
    | _ => .error (.user ("itemsJson[" ++ toString idx ++ "].Code is required."))

def buildProductsGo (idx : Nat) : List JsVal → Except Err (List JsVal)
  | [] => .ok []
  | p :: rest =>
    match buildProduct idx p with
    | .error e => .error e
    | .ok prod =>
      match buildProductsGo (idx + 1) rest with
      | .error e => .error e
      | .ok prods => .ok (prod :: prods)

/-- `buildProducts(items)`. -/
def buildProducts (items : JsVal) : Except Err (List JsVal) :=
  match items with
  | .arr l =>
    if l.isEmpty then .error (.user "itemsJson must be a non-empty JSON array of product objects.")
    else buildProductsGo 0 l
  | _ => .error (.user "itemsJson must be a non-empty JSON array of product objects.")

/-! ### Quote summarization and store selection -/

/-- The summary object `summarizeQuote` returns (items are the `{code, qty}`
pairs). -/
structure QuoteSummary where
  storeId : JsVal
  serviceMethod : JsVal
  items : List (JsVal × JsVal)
  totals : JsVal
  total : JsVal
deriving Repr

/-- `summarizeQuote(priced)`. -/
def summarizeQuote (priced : JsVal) : QuoteSummary :=
  let order := jsOr (getField priced "Order") (.obj [])
  let products := (asArray? (getField order "Products")).getD []
  let amounts := jsOr (getField order "Amounts") (.obj [])
  let total :=
    jsOr (getField amounts "Customer")
      (jsOr (getField amounts "Payment")
        (jsOr (getField amounts "Order")
          (jsOr (getField amounts "Total")
            (jsOr (getField amounts "Amount")
              (getField (getField (getField priced "Order") "Amounts") "Customer")))))
  { storeId := getField order "StoreID"
    serviceMethod := getField order "ServiceMethod"
    items := products.map (fun p => (getField p "Code", getField p "Qty"))
    totals := amounts
    total := jsCoalesce total .null }

/-- Predicate of the first `find`: `s?.IsOnlineNow && (s?.IsOpen || s?.ServiceIsOpen)`. -/
def storeP1 (s : JsVal) : Bool :=
  truthy (getField s "IsOnlineNow") &&
    (truthy (getField s "IsOpen") || truthy (getField s "ServiceIsOpen"))

/-- Predicate of the second `find`: `s?.IsOnlineNow`. -/
def storeP2 (s : JsVal) : Bool := truthy (getField s "IsOnlineNow")

/-- `stores.find(p1) || stores.find(p2) || stores[0]` (any element matching a
predicate has a truthy field, hence is an object and truthy, so the `||`
chain is exactly this first-some cascade). -/
def pickBestStore (stores : List JsVal) : JsVal :=
  match stores.find? storeP1 with
  | some s => s
  | none =>
    match stores.find? storeP2 with
    | some s => s
    | none => stores.headD .undefined

/-- `String(best?.StoreID || best?.StoreId || '').trim()`. -/
def storeIdOf (best : JsVal) : String :=
  jsTrim (jsToString (jsOr (getField best "StoreID") (jsOr (getField best "StoreId") (.str ""))))

/-- The response-processing part of `findBestStore` (its store-locator request
itself is a network effect, threaded by the pipeline below). -/
def findBestStore (data : JsVal) : Except Err (String × JsVal) :=
  let stores := (asArray? (getField data "Stores")).getD []
  if stores.isEmpty then .error (.user "No Domino’s stores found for that address.")
  else
    let best := pickBestStore stores
    let storeId := storeIdOf best
    if storeId = "" then
      .error (.user "Could not determine a StoreID from store-locator response.")
    else .ok (storeId, best)

def QUOTE_TTL_MS : Int := 30 * 60 * 1000

/-! ### The resilient HTTP client (`dominosFetchJson` retry loop)

The transport is modelled by an oracle `responses : Nat → Resp` giving the
response of the n-th attempt (attempts are numbered from 1, as in the source
loop) with the body already read and parsed, and a jitter oracle
`jitter : Nat → Nat` standing for `Math.floor(Math.random() * 200)` drawn
before the retry that follows attempt n. The function returns the loop's
outcome together with the list of backoff delays it waited. -/

structure Resp where
  status : Nat
  data : JsVal

/-- `res.ok` of the Fetch API: status in the inclusive range 200–299. -/
def resOk (status : Nat) : Bool := 200 ≤ status && status < 300

/-- `res.status === 429 || (res.status >= 500 && res.status <= 599)`. -/
def retryable (status : Nat) : Bool := status == 429 || (500 ≤ status && status ≤ 599)

def maxAttempts : Nat := 4

/-- The `for (let attempt = 1; ...)` loop body; `fuel` only bounds recursion
and never runs out when called with `fuel = maxAttempts`, `attempt = 1`. -/
def fetchGo (responses : Nat → Resp) (jitter : Nat → Nat) :
    Nat → Nat → Except Err JsVal × List Nat
  | _, 0 => (.error (.user "unreachable"), [])
  | attempt, fuel + 1 =>
    let r := responses attempt
    if resOk r.status then (.ok r.data, [])
    else
      let e := Err.request r.status r.data
      if !retryable r.status || attempt == maxAttempts then (.error e, [])
      else
        let d := 250 * 2 ^ (attempt - 1) + jitter attempt
        let rest := fetchGo responses jitter (attempt + 1) fuel
        (rest.1, d :: rest.2)

/-- `dominosFetchJson`, reduced to its retry/backoff behaviour: the URL/header
assembly and the text/content-type/JSON-parse step are absorbed into the
response oracle (`Resp.data` is the parsed body). -/
def dominosFetchJson (responses : Nat → Resp) (jitter : Nat → Nat) :
    Except Err JsVal × List Nat :=
  fetchGo responses jitter 1 maxAttempts

/-! ### The two Rovo actions as state-passing functions

Each upstream `dominosFetchJson` call made by an action is abstracted to one
oracle lookup (`Env.fetchResults n` is the outcome of the action's n-th call,
an `Except` since the client may throw), `crypto.randomUUID()` to the oracle
`Env.uuids`, and `Date.now()` to `Env.now`. The state carries the Forge
key-value storage and a trace of network/storage effects in order. -/

/-- One observable effect. -/
inductive Event where
  | fetch (path : String) (body : JsVal)
  | storageGet (key : String)
  | storageSet (key : String)
  | storageDelete (key : String)
deriving Repr

/-- The record `quotePizzaOrder` persists under `pizza:quote:<token>`. -/
structure StoredQuote where
  createdAt : Int
  storeId : String
  serviceMethod : String
  storeHint : JsVal
  pricedDraft : JsVal
deriving Repr

structure Env where
  fetchResults : Nat → Except Err JsVal
  uuids : Nat → String
  now : Int

structure St where
  fetchCount : Nat
  uuidCount : Nat
  trace : List Event
  store : List (String × StoredQuote)

/-- One `dominosFetchJson` call: consumes the next oracle outcome and records
the request. -/
def callFetch (path : String) (body : JsVal) (env : Env) (s : St) :
    Except Err JsVal × St :=
  (env.fetchResults s.fetchCount,
   { s with fetchCount := s.fetchCount + 1, trace := s.trace ++ [.fetch path body] })

/-- One `crypto.randomUUID()` call. -/
def freshUuid (env : Env) (s : St) : String × St :=
  (env.uuids s.uuidCount, { s with uuidCount := s.uuidCount + 1 })

def storageGetOp (key : String) (s : St) : Option StoredQuote × St :=
  ((s.store.find? (fun e => e.1 == key)).map (fun e => e.2),
   { s with trace := s.trace ++ [.storageGet key] })

def storageSetOp (key : String) (v : StoredQuote) (s : St) : St :=
  { s with
    store :=
      if s.store.any (fun e => e.1 == key) then
        s.store.map (fun e => if e.1 == key then (key, v) else e)
      else s.store ++ [(key, v)]
    trace := s.trace ++ [.storageSet key] }

def storageDeleteOp (key : String) (s : St) : St :=
  { s with
    store := s.store.filter (fun e => !(e.1 == key))
    trace := s.trace ++ [.storageDelete key] }

/-- The pure input-validation phase of `quotePizzaOrder` (lines 264–279 of the
source, which perform no network or storage access): service method, address,
contact fields, items JSON, products. -/
structure QuoteInputs where
  serviceMethod : String
  address : JsVal
  phone : String
  email : String
  products : List JsVal

def quoteValidate (payload : JsVal) : Except Err QuoteInputs :=
  match normalizeServiceMethod (getField payload "serviceMethod") with
  | .error e => .error e
  | .ok serviceMethod =>
    match buildAddress (getField payload "addressLine1") (getField payload "addressLine2")
        (getField payload "city") (getField payload "region") (getField payload "postalCode") with
    | .error e => .error e
    | .ok address =>
      match assertString (getField payload "phone") "phone" with
      | .error e => .error e
      | .ok phone =>
        match assertString (getField payload "email") "email" with
        | .error e => .error e
        | .ok email =>
          match assertString (getField payload "itemsJson") "itemsJson" with
          | .error e => .error e
          | .ok itemsJson =>
            match safeJsonParse itemsJson "itemsJson" with
            | .error e => .error e
            | .ok items =>
              match buildProducts items with
              | .error e => .error e
              | .ok products => .ok ⟨serviceMethod, address, phone, email, products⟩

/-- The result value `quotePizzaOrder` resolves with: the `ok:false`
validation-rejection object, or the `ok:true` quote object. -/
inductive QuoteResult where
  | rejected (step : String) (status : JsVal) (message : JsVal) (details : JsVal)
  | success (orderToken : String) (quote : QuoteSummary) (message : String)
deriving Repr

/-- The full `Order` payload submitted to validate-order (constant fields
included verbatim from the source; `orderId` is a fresh UUID with dashes
removed, truncated to 20 characters). -/
def buildOrderPayload (inp : QuoteInputs) (storeId : String) (orderId : String) : JsVal :=
  .obj [("Order", .obj
    [("Address", inp.address),
     ("Coupons", .arr []),
     ("CustomerID", .str ""),
     ("Email", .str inp.email),
     ("Extension", .str ""),
     ("FirstName", .str ""),
     ("LastName", .str ""),
     ("LanguageCode", .str "en"),
     ("OrderChannel", .str "OLO"),
     ("OrderID", .str orderId),
     ("OrderMethod", .str "Web"),
     ("OrderTaker", .null),
     ("Payments", .arr []),
     ("Phone", .str inp.phone),
     ("PhonePrefix", .str ""),
     ("Products", .arr inp.products),
     ("ServiceMethod", .str inp.serviceMethod),
     ("SourceOrganizationURI", .str "order.dominos.com"),
     ("StoreID", .str storeId),
     ("Tags", .obj []),
     ("Version", .str "1.0"),
     ("NoCombine", .bool true),
     ("Partners", .obj []),
     ("OrderInfoCollection", .arr [])])]

/-- `validated?.Status && validated.Status !== 0 && validated.Status !== '0'`. -/
def statusRejects (v : JsVal) : Bool := truthy v && !isNumZero v && !isStrZero v

/-- The store-locator query object `{s, c, type}` built by `findBestStore`
from the raw payload fields (`c` is the template string
`` `${city}, ${region} ${postalCode}` ``). -/
def locatorQuery (payload : JsVal) (serviceMethod : String) : JsVal :=
  .obj [("s", getField payload "addressLine1"),
        ("c", .str (jsToString (getField payload "city") ++ ", " ++
                    jsToString (getField payload "region") ++ " " ++
                    jsToString (getField payload "postalCode"))),
        ("type", .str (if serviceMethod == "Delivery" then "Delivery" else "Carryout"))]

/-- The network/storage phase of `quotePizzaOrder` (source lines 281–356):
store-locator → validate-order → (reject?) → price-order → persist draft. -/
def quotePipeline (payload : JsVal) (inp : QuoteInputs) (env : Env) (s : St) :
    Except Err QuoteResult × St :=
  match callFetch "/power/store-locator" (locatorQuery payload inp.serviceMethod) env s with
  | (.error e, s1) => (.error e, s1)
  | (.ok locData, s1) =>
    match findBestStore locData with
    | .error e => (.error e, s1)
    | .ok (storeId, store) =>
      let (rawUuid, s2) := freshUuid env s1
      let orderId := ((rawUuid.replace "-" "").take 20)
      match callFetch "/power/validate-order" (buildOrderPayload inp storeId orderId) env s2 with
      | (.error e, s3) => (.error e, s3)
      | (.ok validated, s3) =>
        if statusRejects (getField validated "Status") then
          (.ok (.rejected "validate-order" (getField validated "Status")
            (jsOr (getField validated "Message") (.str "Order validation failed."))
            validated), s3)
        else
          match callFetch "/power/price-order" validated env s3 with
          | (.error e, s4) => (.error e, s4)
          | (.ok priced, s4) =>
            let (orderToken, s5) := freshUuid env s4
            let s6 := storageSetOp ("pizza:quote:" ++ orderToken)
              { createdAt := env.now
                storeId := storeId
                serviceMethod := inp.serviceMethod
                storeHint := .obj
                  [("StoreID", getField store "StoreID"),
                   ("Name", getField store "Name"),
                   ("AddressDescription", getField store "AddressDescription")]
                pricedDraft := priced } s5
            (.ok (.success orderToken (summarizeQuote priced)
              "Quote created. Present this summary to the user and only call place-pizza-order with confirm=true after explicit confirmation."), s6)

/-- Rovo action `quote-pizza-order`. -/
def quotePizzaOrder (payload : JsVal) (env : Env) (s : St) : Except Err QuoteResult × St :=
  match quoteValidate payload with
  | .error e => (.error e, s)
  | .ok inp => quotePipeline payload inp env s

/-- The resolution value of `placePizzaOrder` (`{ok: true, result, note}`). -/
structure PlaceResult where
  result : JsVal
  note : String
deriving Repr

/-- Rovo action `place-pizza-order`. Mirrors the source exactly: when the
place-order call throws, the function propagates the error *without* reaching
the `storage.delete` that follows it. -/
def placePizzaOrder (payload : JsVal) (env : Env) (s : St) : Except Err PlaceResult × St :=
  match assertString (getField payload "orderToken") "orderToken" with
  | .error e => (.error e, s)
  | .ok orderToken =>
    let confirm := isTrueLit (getField payload "confirm")
    if !confirm then
      (.error (.user "Refusing to place order: confirm must be true (explicit user confirmation required)."), s)
    else
      let key := "pizza:quote:" ++ orderToken
      let (saved, s1) := storageGetOp key s
      match saved with
      | none => (.error (.user "Unknown or expired orderToken. Please re-quote the order."), s1)
      | some saved =>
        if env.now - saved.createdAt > QUOTE_TTL_MS then
          (.error (.user "That quote has expired. Please re-quote the order."),
           storageDeleteOp key s1)
        else
          match callFetch "/power/place-order" saved.pricedDraft env s1 with
          | (.error e, s2) => (.error e, s2)
          | (.ok placed, s2) =>
            (.ok { result := placed
                   note := "If Domino’s rejects due to payment requirements, extend the schema to collect a supported payment method or switch to a handoff flow." },
             storageDeleteOp key s2)

/-! ### Observers used by the theorems -/

def isOkE {α : Type} : Except Err α → Bool
  | .ok _ => true
  | .error _ => false

/-- Whether a thrown error is a `UserError` (as opposed to the request-failed
error of the HTTP client). -/
def isUserErrE {α : Type} : Except Err α → Bool
  | .error (.user _) => true
  | _ => false

/-- The quote action resolved with the `ok:false` validation-rejection object. -/
def isRejectedResult : Except Err QuoteResult → Bool
  | .ok (.rejected _ _ _ _) => true
  | _ => false

/-- The quote action resolved with the `ok:true` quote object. -/
def isSuccessResult : Except Err QuoteResult → Bool
  | .ok (.success _ _ _) => true
  | _ => false

/-- The paths of the network requests in a trace, in order. -/
def fetchPaths (tr : List Event) : List String :=
  tr.filterMap (fun e => match e with | .fetch p _ => some p | _ => none)

/-- The keys of the storage writes in a trace, in order. -/
def setKeys (tr : List Event) : List String :=
  tr.filterMap (fun e => match e with | .storageSet k => some k | _ => none)

/-! ### C9 — service-method normalization -/

/-! ### Concrete inputs and input-class predicates used by the theorems -/
def c8Priced : JsVal := .obj [("Order", .obj
  [("StoreID", .str "123"),
   ("Amounts", .obj [("Customer", .num ⟨0, 1⟩), ("Payment", .num ⟨5, 1⟩)])])]

def c5Offline : JsVal := .obj [("StoreID", .str "11"), ("IsOnlineNow", .bool false)]

def c5Online : JsVal :=
  .obj [("StoreID", .str "77"), ("IsOnlineNow", .bool true), ("IsOpen", .bool true)]

def c5Data : JsVal := .obj [("Stores", .arr [c5Offline, c5Online])]

def c6Responses : Nat → Resp := fun n =>
  if n = 1 then ⟨500, .null⟩ else if n = 2 then ⟨429, .str "slow down"⟩ else ⟨200, .str "done"⟩

def c6Jitter : Nat → Nat := fun n => n % 200

def baseSt : St := { fetchCount := 0, uuidCount := 0, trace := [], store := [] }

def idleEnv : Env := { fetchResults := fun _ => .ok .null, uuids := fun _ => "u", now := 0 }

def c2wPayload : JsVal := .obj [("orderToken", .str "tok"), ("confirm", .bool false)]

def c4Quote : StoredQuote :=
  { createdAt := 0, storeId := "123", serviceMethod := "Delivery",
    storeHint := .null, pricedDraft := .str "draft" }

def c4St : St := { fetchCount := 0, uuidCount := 0, trace := [],
                   store := [("pizza:quote:tok", c4Quote)] }

def c4Env : Env := { fetchResults := fun _ => .ok .null, uuids := fun _ => "u",
                     now := QUOTE_TTL_MS + 1 }

def c4Payload : JsVal := .obj [("orderToken", .str "tok"), ("confirm", .bool true)]

def c1Quote : StoredQuote :=
  { createdAt := 0, storeId := "123", serviceMethod := "Delivery",
    storeHint := .null, pricedDraft := .str "draft" }

def c1St : St := { fetchCount := 0, uuidCount := 0, trace := [],
                   store := [("pizza:quote:tok", c1Quote)] }

def c1Env : Env := { fetchResults := fun _ => .error (.request 500 .null),
                     uuids := fun _ => "u", now := 1 }

def c1Payload : JsVal := .obj [("orderToken", .str "tok"), ("confirm", .bool true)]

def c10Locator : JsVal :=
  .obj [("Stores", .arr [.obj [("StoreID", .str "123"), ("IsOnlineNow", .bool true),
    ("IsOpen", .bool true)]])]

def c10Validated : JsVal :=
  .obj [("Status", .num ⟨1, 1⟩), ("Message", .str "Address not serviceable")]

def basePayload : JsVal := .obj
  [("addressLine1", .str "1 Main St"),
   ("city", .str "New York"),
   ("region", .str "NY"),
   ("postalCode", .str "10001"),
   ("phone", .str "2125551212"),
   ("email", .str "test@example.com"),
   ("itemsJson", .str "[\x7b\"Code\":\"14SCREEN\",\"Qty\":1\x7d]"),
   ("serviceMethod", .str "DELIVERY")]

def c10Env : Env :=
  { fetchResults := fun n => if n = 0 then .ok c10Locator else .ok c10Validated
    uuids := fun _ => "aaaa-bbbb"
    now := 1000 }

def c7Validated : JsVal := .obj [("Status", .str ""), ("Message", .str "odd")]

def c7Priced : JsVal :=
  .obj [("Order", .obj [("Amounts", .obj [("Customer", .num ⟨1999, 100⟩)])])]

def c7Env : Env :=
  { fetchResults := fun n =>
      if n = 0 then .ok c10Locator else if n = 1 then .ok c7Validated else .ok c7Priced
    uuids := fun n => if n = 0 then "aaaa-bbbb" else "tok-1"
    now := 1000 }

def c7bEnv : Env :=
  { fetchResults := fun n => if n = 0 then .ok c10Locator else .ok c10Validated
    uuids := fun _ => "aaaa-bbbb"
    now := 1000 }

/-- A field value `assertString` rejects: not a string, or blank after
trimming. -/
def blankField (v : JsVal) : Bool :=
  match v with
  | .str s => jsTrim s == ""
  | _ => true

/-- A line item `buildProducts` rejects: `Code` missing/non-string/blank, or
`Qty` coercing to a non-finite number or one that is not positive. -/
def badItem (p : JsVal) : Bool :=
  (match getField p "Code" with
   | .str c => jsTrim c == ""
   | _ => true) ||
  (match toNumber (getField p "Qty") with
   | none => true
   | some q => q.nonPos)

/-- The malformed-input classes of the claim: a blank required address or
contact field, an itemsJson string that is not valid JSON, an empty item
array, an item with a blank Code or a non-finite/non-positive Qty, or an
unrecognized (truthy) service method. -/
def malformedQuotePayload (payload : JsVal) : Prop :=
  blankField (getField payload "addressLine1") = true ∨
  blankField (getField payload "city") = true ∨
  blankField (getField payload "region") = true ∨
  blankField (getField payload "postalCode") = true ∨
  blankField (getField payload "phone") = true ∨
  blankField (getField payload "email") = true ∨
  (∃ s, getField payload "itemsJson" = .str s ∧ jsonParse (jsTrim s) = none) ∨
  (∃ s, getField payload "itemsJson" = .str s ∧ jsonParse (jsTrim s) = some (.arr [])) ∨
  (∃ s l p, getField payload "itemsJson" = .str s ∧ jsonParse (jsTrim s) = some (.arr l) ∧
    p ∈ l ∧ badItem p = true) ∨
  (truthy (getField payload "serviceMethod") = true ∧
    jsToUpper (jsTrim (jsToString (getField payload "serviceMethod"))) ≠ "DELIVERY" ∧
    jsToUpper (jsTrim (jsToString (getField payload "serviceMethod"))) ≠ "CARRYOUT")

def c3Payload : JsVal := .obj
  [("addressLine1", .str "1 Main St"),
   ("city", .str "New York"),
   ("region", .str "NY"),
   ("postalCode", .str "10001"),
   ("phone", .str "2125551212"),
   ("email", .str "test@example.com"),
   ("itemsJson", .str "[\x7b\"Code\":\"14SCREEN\",\"Qty\":0\x7d]"),
   ("serviceMethod", .str "DELIVERY")]

/-- C9 counterexample: the empty string matches neither `DELIVERY` nor
`CARRYOUT` case-insensitively after trimming, yet `normalizeServiceMethod`
returns `Delivery` instead of failing with a validation error (a falsy input
is defaulted to `'DELIVERY'` before matching). -/
theorem C9_falsy_input_defaults_counterexample :
    jsToUpper (jsTrim "") ≠ "DELIVERY" ∧ jsToUpper (jsTrim "") ≠ "CARRYOUT" ∧
    normalizeServiceMethod (.str "") = .ok "Delivery" :=
  ⟨by decide, by decide, by rfl⟩

/-- C9 (amended): a falsy service-method input (absent, null, empty string,
false, 0) is defaulted to `DELIVERY` and yields `Delivery`; a truthy input is
stringified, trimmed and matched case-insensitively against
`DELIVERY`/`CARRYOUT`, mapping to the exact upstream casings
`Delivery`/`Carryout`, and any other truthy input fails with a validation
error naming the normalized (trimmed, upper-cased) input. -/
theorem C9_serviceMethod_normalization (v : JsVal) :
    (truthy v = false → normalizeServiceMethod v = .ok "Delivery") ∧
    (truthy v = true →
      (jsToUpper (jsTrim (jsToString v)) = "DELIVERY" →
        normalizeServiceMethod v = .ok "Delivery") ∧
      (jsToUpper (jsTrim (jsToString v)) = "CARRYOUT" →
        normalizeServiceMethod v = .ok "Carryout") ∧
      (jsToUpper (jsTrim (jsToString v)) ≠ "DELIVERY" →
        jsToUpper (jsTrim (jsToString v)) ≠ "CARRYOUT" →
        normalizeServiceMethod v =
          .error (.user ("serviceMethod must be DELIVERY or CARRYOUT (got " ++
            jsToUpper (jsTrim (jsToString v)) ++ ").")))) := by
  constructor
  · intro h
    simp only [normalizeServiceMethod, jsOr, h, Bool.false_eq_true, if_false]
    rfl
  · intro h
    have hOr : jsOr v (.str "DELIVERY") = v := by simp [jsOr, h]
    refine ⟨?_, ?_, ?_⟩
    · intro hu
      simp only [normalizeServiceMethod, hOr, hu, if_true]
    · intro hu
      simp only [normalizeServiceMethod, hOr, hu]
      rw [if_neg (by decide)]
      simp
    · intro hu1 hu2
      simp only [normalizeServiceMethod, hOr, hu1, hu2, if_false]

/-- Witness for C9 at the concrete input `" carryout "`. -/
theorem C9_serviceMethod_normalization_witness :
    normalizeServiceMethod (.str " carryout ") = .ok "Carryout" :=
  ((C9_serviceMethod_normalization (.str " carryout ")).2 (by rfl)).2.1 (by rfl)

/-! ### C8 — quote summarization -/

theorem jsCoalesce_null_of_truthy {v : JsVal} (h : truthy v = true) :
    jsCoalesce v .null = v := by
  cases v <;> simp_all [truthy, isNullish, jsCoalesce]

/-- The six-term `||`-chain under `?? null`, re-expressed as a first-truthy
search over the five candidate fields with the final fallback. -/
theorem totalChain (c1 c2 c3 c4 c5 f : JsVal) :
    jsCoalesce (jsOr c1 (jsOr c2 (jsOr c3 (jsOr c4 (jsOr c5 f))))) .null =
      (match [c1, c2, c3, c4, c5].find? truthy with
       | some v => v
       | none => if isNullish f then JsVal.null else f) := by
  by_cases h1 : truthy c1
  · simp [jsOr, h1, jsCoalesce_null_of_truthy h1]
  by_cases h2 : truthy c2
  · simp [jsOr, h1, h2, jsCoalesce_null_of_truthy h2]
  by_cases h3 : truthy c3
  · simp [jsOr, h1, h2, h3, jsCoalesce_null_of_truthy h3]
  by_cases h4 : truthy c4
  · simp [jsOr, h1, h2, h3, h4, jsCoalesce_null_of_truthy h4]
  by_cases h5 : truthy c5
  · simp [jsOr, h1, h2, h3, h4, h5, jsCoalesce_null_of_truthy h5]
  simp [jsOr, jsCoalesce, h1, h2, h3, h4, h5]

/-- C8 counterexample: in the amounts object `{Customer: 0, Payment: 5}` the
first *present* field in the claimed priority order is `Customer` with value
0, but the returned total is `Payment`'s 5 — the chain tests truthiness, not
presence, so a present-but-zero amount is skipped. -/
theorem C8_first_present_counterexample :
    hasField (getField (getField c8Priced "Order") "Amounts") "Customer" = true ∧
    (summarizeQuote c8Priced).total = .num ⟨5, 1⟩ ∧
    JsVal.num ⟨5, 1⟩ ≠ JsVal.num ⟨0, 1⟩ :=
  ⟨rfl, rfl, by simp⟩

/-- C8 (amended): `summarizeQuote` extracts the store id, service method and
`(code, qty)` pairs from the order, and as total takes the first *truthy*
value among the amounts fields `Customer`, `Payment`, `Order`, `Total`,
`Amount` in that order; when none is truthy it falls back to re-reading the
`Customer` field, and the total is `null` exactly when that fallback is
`null`/`undefined` as well. -/
theorem C8_summarizeQuote_extraction (priced : JsVal) :
    (summarizeQuote priced).storeId =
      getField (jsOr (getField priced "Order") (.obj [])) "StoreID" ∧
    (summarizeQuote priced).serviceMethod =
      getField (jsOr (getField priced "Order") (.obj [])) "ServiceMethod" ∧
    (summarizeQuote priced).items =
      ((asArray? (getField (jsOr (getField priced "Order") (.obj [])) "Products")).getD []).map
        (fun p => (getField p "Code", getField p "Qty")) ∧
    (summarizeQuote priced).total =
      (match
          [getField (jsOr (getField (jsOr (getField priced "Order") (.obj [])) "Amounts") (.obj [])) "Customer",
           getField (jsOr (getField (jsOr (getField priced "Order") (.obj [])) "Amounts") (.obj [])) "Payment",
           getField (jsOr (getField (jsOr (getField priced "Order") (.obj [])) "Amounts") (.obj [])) "Order",
           getField (jsOr (getField (jsOr (getField priced "Order") (.obj [])) "Amounts") (.obj [])) "Total",
           getField (jsOr (getField (jsOr (getField priced "Order") (.obj [])) "Amounts") (.obj [])) "Amount"].find? truthy with
       | some v => v
       | none =>
         if isNullish (getField (getField (getField priced "Order") "Amounts") "Customer")
         then JsVal.null
         else getField (getField (getField priced "Order") "Amounts") "Customer") :=
  ⟨rfl, rfl, rfl, totalChain _ _ _ _ _ _⟩

/-! ### C5 — store selection -/

/-- `find?` returns the first match: the list splits at the found element and
everything before it fails the predicate. -/
theorem find?_first {α : Type} (p : α → Bool) (l : List α) (b : α) :
    l.find? p = some b ↔
      ∃ l1 l2, l = l1 ++ b :: l2 ∧ (∀ x ∈ l1, p x = false) ∧ p b = true := by
  induction l with
  | nil => simp
  | cons a t ih =>
    by_cases h : p a
    · rw [List.find?_cons_of_pos _ h]
      constructor
      · intro hb
        obtain rfl : a = b := by simpa using hb
        exact ⟨[], t, rfl, by simp, h⟩
      · rintro ⟨l1, l2, heq, hl1, hb⟩
        cases l1 with
        | nil =>
          simp only [List.nil_append, List.cons.injEq] at heq
          rw [heq.1]
        | cons x xs =>
          simp only [List.cons_append, List.cons.injEq] at heq
          obtain ⟨rfl, -⟩ := heq
          have := hl1 a (by simp)
          simp [h] at this
    · rw [List.find?_cons_of_neg _ h, ih]
      constructor
      · rintro ⟨l1, l2, rfl, hl1, hb⟩
        refine ⟨a :: l1, l2, rfl, ?_, hb⟩
        intro x hx
        rcases List.mem_cons.1 hx with rfl | hx
        · simpa using h
        · exact hl1 x hx
      · rintro ⟨l1, l2, heq, hl1, hb⟩
        cases l1 with
        | nil =>
          simp only [List.nil_append, List.cons.injEq] at heq
          rw [heq.1] at h
          simp [hb] at h
        | cons x xs =>
          simp only [List.cons_append, List.cons.injEq] at heq
          obtain ⟨rfl, rfl⟩ := heq
          exact ⟨xs, l2, rfl, fun y hy => hl1 y (by simp [hy]), hb⟩

/-- C5: store resolution fails with the no-stores error exactly when the
candidate list is empty or absent; otherwise it selects the first candidate
that is online and open, else the first online candidate, else the head of
the list, and fails with the store-id-missing error exactly when the selected
candidate's identifier chain stringifies and trims to the empty string. -/
theorem C5_store_selection (data : JsVal) (stores : List JsVal)
    (hs : (asArray? (getField data "Stores")).getD [] = stores) :
    (findBestStore data = .error (.user "No Domino’s stores found for that address.") ↔
      stores = []) ∧
    ((∃ s ∈ stores, storeP1 s = true) →
      ∃ l1 l2, stores = l1 ++ pickBestStore stores :: l2 ∧
        storeP1 (pickBestStore stores) = true ∧ ∀ x ∈ l1, storeP1 x = false) ∧
    ((∀ s ∈ stores, storeP1 s = false) → (∃ s ∈ stores, storeP2 s = true) →
      ∃ l1 l2, stores = l1 ++ pickBestStore stores :: l2 ∧
        storeP2 (pickBestStore stores) = true ∧ ∀ x ∈ l1, storeP2 x = false) ∧
    ((∀ s ∈ stores, storeP1 s = false) → (∀ s ∈ stores, storeP2 s = false) →
      pickBestStore stores = stores.headD .undefined) ∧
    (stores ≠ [] →
      (storeIdOf (pickBestStore stores) = "" ↔
        findBestStore data =
          .error (.user "Could not determine a StoreID from store-locator response."))) ∧
    (stores ≠ [] → storeIdOf (pickBestStore stores) ≠ "" →
      findBestStore data = .ok (storeIdOf (pickBestStore stores), pickBestStore stores)) := by
  subst hs
  refine ⟨?_, ?_, ?_, ?_, ?_, ?_⟩
  · simp only [findBestStore]
    by_cases he : (asArray? (getField data "Stores")).getD [] = []
    · simp [he]
    · rw [if_neg (by simpa [List.isEmpty_iff] using he)]
      simp only [List.isEmpty_iff, he, iff_false]
      split
      · intro hcontra
        simp only [Except.error.injEq, Err.user.injEq] at hcontra
        exact absurd hcontra (by decide)
      · simp
  · intro ⟨s, hmem, hp⟩
    have hne : ((asArray? (getField data "Stores")).getD []).find? storeP1 ≠ none := by
      intro hn
      exact absurd hp (by simpa using List.find?_eq_none.1 hn s hmem)
    obtain ⟨b, hb⟩ := Option.ne_none_iff_exists'.1 hne
    have : pickBestStore ((asArray? (getField data "Stores")).getD []) = b := by
      simp [pickBestStore, hb]
    rw [this]
    obtain ⟨l1, l2, heq, hl1, hbp⟩ := (find?_first _ _ _).1 hb
    exact ⟨l1, l2, heq, hbp, hl1⟩
  · intro hall ⟨s, hmem, hp⟩
    have h1 : ((asArray? (getField data "Stores")).getD []).find? storeP1 = none :=
      List.find?_eq_none.2 (fun x hx => by simp [hall x hx])
    have hne : ((asArray? (getField data "Stores")).getD []).find? storeP2 ≠ none := by
      intro hn
      exact absurd hp (by simpa using List.find?_eq_none.1 hn s hmem)
    obtain ⟨b, hb⟩ := Option.ne_none_iff_exists'.1 hne
    have : pickBestStore ((asArray? (getField data "Stores")).getD []) = b := by
      simp [pickBestStore, h1, hb]
    rw [this]
    obtain ⟨l1, l2, heq, hl1, hbp⟩ := (find?_first _ _ _).1 hb
    exact ⟨l1, l2, heq, hbp, hl1⟩
  · intro hall1 hall2
    have h1 : ((asArray? (getField data "Stores")).getD []).find? storeP1 = none :=
      List.find?_eq_none.2 (fun x hx => by simp [hall1 x hx])
    have h2 : ((asArray? (getField data "Stores")).getD []).find? storeP2 = none :=
      List.find?_eq_none.2 (fun x hx => by simp [hall2 x hx])
    simp [pickBestStore, h1, h2]
  · intro hne
    simp only [findBestStore]
    rw [if_neg (by simpa [List.isEmpty_iff] using hne)]
    by_cases hid : storeIdOf (pickBestStore ((asArray? (getField data "Stores")).getD [])) = ""
    · simp [hid]
    · simp [hid]
  · intro hne hid
    simp only [findBestStore]
    rw [if_neg (by simpa [List.isEmpty_iff] using hne), if_neg hid]

/-- Witness for C5: on a concrete list whose second candidate is the only
online+open one, resolution returns that candidate with its id. -/
theorem C5_store_selection_witness : findBestStore c5Data = .ok ("77", c5Online) :=
  (C5_store_selection c5Data [c5Offline, c5Online] rfl).2.2.2.2.2 (by simp) (by decide)

/-! ### C6 — HTTP retry policy -/

/-- C6: the client retries only on 429/5xx failures, makes at most 4 attempts
in total, stops at the first success or non-retryable status, waits
`250·2^(n−1) + jitter` (jitter < 200ms) before retry n — so the realized
delays are strictly increasing — and on a final failure raises the error
carrying the last response's status and parsed body (exhaustion being exactly
a non-retryable last status or the attempt cap). -/
theorem C6_retry_policy (responses : Nat → Resp) (jitter : Nat → Nat)
    (hj : ∀ n, jitter n < 200) :
    (dominosFetchJson responses jitter).2.length + 1 ≤ maxAttempts ∧
    (dominosFetchJson responses jitter).2 =
      (List.range (dominosFetchJson responses jitter).2.length).map
        (fun i => 250 * 2 ^ i + jitter (i + 1)) ∧
    ((List.range (dominosFetchJson responses jitter).2.length).all
      (fun i => !resOk (responses (i + 1)).status && retryable (responses (i + 1)).status))
        = true ∧
    (dominosFetchJson responses jitter).2.Pairwise (· < ·) ∧
    (dominosFetchJson responses jitter).1 =
      (if resOk (responses ((dominosFetchJson responses jitter).2.length + 1)).status then
        .ok (responses ((dominosFetchJson responses jitter).2.length + 1)).data
      else
        .error (.request (responses ((dominosFetchJson responses jitter).2.length + 1)).status
          (responses ((dominosFetchJson responses jitter).2.length + 1)).data)) ∧
    (resOk (responses ((dominosFetchJson responses jitter).2.length + 1)).status = false →
      retryable (responses ((dominosFetchJson responses jitter).2.length + 1)).status = false ∨
        (dominosFetchJson responses jitter).2.length + 1 = maxAttempts) := by
  have e1 := hj 1
  have e2 := hj 2
  have e3 := hj 3
  by_cases o1 : resOk (responses 1).status
  · have hred : dominosFetchJson responses jitter = (.ok (responses 1).data, []) := by
      simp [dominosFetchJson, fetchGo, o1]
    rw [hred]
    simp [o1, maxAttempts]
  · by_cases t1 : retryable (responses 1).status
    · by_cases o2 : resOk (responses 2).status
      · have hred : dominosFetchJson responses jitter =
            (.ok (responses 2).data, [250 * 2 ^ 0 + jitter 1]) := by
          simp [dominosFetchJson, fetchGo, o1, t1, o2, maxAttempts]
        rw [hred]
        simp [o1, t1, o2, maxAttempts, List.range_succ]
      · by_cases t2 : retryable (responses 2).status
        · by_cases o3 : resOk (responses 3).status
          · have hred : dominosFetchJson responses jitter =
                (.ok (responses 3).data,
                  [250 * 2 ^ 0 + jitter 1, 250 * 2 ^ 1 + jitter 2]) := by
              simp [dominosFetchJson, fetchGo, o1, t1, o2, t2, o3, maxAttempts]
            rw [hred]
            refine ⟨by norm_num [maxAttempts], by simp [List.range_succ], by simp [List.range_succ, o1, t1, o2, t2], ?_, by simp [o3], by simp [o3]⟩
            simp [List.pairwise_cons]
            omega
          · by_cases t3 : retryable (responses 3).status
            · have hred : dominosFetchJson responses jitter =
                  ((if resOk (responses 4).status then .ok (responses 4).data
                    else .error (.request (responses 4).status (responses 4).data)),
                    [250 * 2 ^ 0 + jitter 1, 250 * 2 ^ 1 + jitter 2, 250 * 2 ^ 2 + jitter 3]) := by
                by_cases o4 : resOk (responses 4).status <;>
                  simp [dominosFetchJson, fetchGo, o1, t1, o2, t2, o3, t3, o4, maxAttempts]
              rw [hred]
              refine ⟨by norm_num [maxAttempts], by simp [List.range_succ], by simp [List.range_succ, o1, t1, o2, t2, o3, t3], ?_, by simp, by simp [maxAttempts]⟩
              simp [List.pairwise_cons]
              omega
            · have hred : dominosFetchJson responses jitter =
                  (.error (.request (responses 3).status (responses 3).data),
                    [250 * 2 ^ 0 + jitter 1, 250 * 2 ^ 1 + jitter 2]) := by
                simp [dominosFetchJson, fetchGo, o1, t1, o2, t2, o3, t3, maxAttempts]
              rw [hred]
              refine ⟨by norm_num [maxAttempts], by simp [List.range_succ], by simp [List.range_succ, o1, t1, o2, t2], ?_, by simp [o3], by simp [o3, t3]⟩
              simp [List.pairwise_cons]
              omega
        · have hred : dominosFetchJson responses jitter =
              (.error (.request (responses 2).status (responses 2).data),
                [250 * 2 ^ 0 + jitter 1]) := by
            simp [dominosFetchJson, fetchGo, o1, t1, o2, t2, maxAttempts]
          rw [hred]
          simp [o1, t1, o2, t2, maxAttempts, List.range_succ]
    · have hred : dominosFetchJson responses jitter =
          (.error (.request (responses 1).status (responses 1).data), []) := by
        simp [dominosFetchJson, fetchGo, o1, t1]
      rw [hred]
      simp [o1, t1, maxAttempts]

/-- Witness for C6: a 500, then a 429, then a success — two backoffs with
concrete jittered delays, then the success body is returned. -/
theorem C6_retry_policy_witness :
    (dominosFetchJson c6Responses c6Jitter).2.length + 1 ≤ maxAttempts ∧
    (dominosFetchJson c6Responses c6Jitter).2 =
      (List.range (dominosFetchJson c6Responses c6Jitter).2.length).map
        (fun i => 250 * 2 ^ i + c6Jitter (i + 1)) ∧
    ((List.range (dominosFetchJson c6Responses c6Jitter).2.length).all
      (fun i => !resOk (c6Responses (i + 1)).status && retryable (c6Responses (i + 1)).status))
        = true ∧
    (dominosFetchJson c6Responses c6Jitter).2.Pairwise (· < ·) ∧
    (dominosFetchJson c6Responses c6Jitter).1 =
      (if resOk (c6Responses ((dominosFetchJson c6Responses c6Jitter).2.length + 1)).status then
        .ok (c6Responses ((dominosFetchJson c6Responses c6Jitter).2.length + 1)).data
      else
        .error (.request (c6Responses ((dominosFetchJson c6Responses c6Jitter).2.length + 1)).status
          (c6Responses ((dominosFetchJson c6Responses c6Jitter).2.length + 1)).data)) ∧
    (resOk (c6Responses ((dominosFetchJson c6Responses c6Jitter).2.length + 1)).status = false →
      retryable (c6Responses ((dominosFetchJson c6Responses c6Jitter).2.length + 1)).status = false ∨
        (dominosFetchJson c6Responses c6Jitter).2.length + 1 = maxAttempts) :=
  C6_retry_policy c6Responses c6Jitter (fun n => by simp only [c6Jitter]; omega)

/-! ### C2 — the confirmation gate -/

/-- C2 counterexample: with `confirm: "yes"` (not the literal true) and no
`orderToken`, the call fails with the orderToken validation error — which is
checked first — not the confirmation-required error the claim names. -/
theorem C2_confirm_error_counterexample :
    isTrueLit (getField (JsVal.obj [("confirm", .str "yes")]) "confirm") = false ∧
    (placePizzaOrder (.obj [("confirm", .str "yes")]) idleEnv baseSt).1 =
      .error (.user "orderToken is required and must be a non-empty string.") ∧
    "orderToken is required and must be a non-empty string." ≠
      "Refusing to place order: confirm must be true (explicit user confirmation required)." :=
  ⟨rfl, rfl, by decide⟩

/-- The `assertString` error is always the required-field message for its
field name. -/
theorem assertString_error_msg {v : JsVal} {name : String} {e : Err}
    (h : assertString v name = .error e) :
    e = .user (name ++ " is required and must be a non-empty string.") := by
  cases v <;> simp only [assertString] at h
  case str s =>
    by_cases hb : jsTrim s = ""
    · rw [if_pos hb] at h
      cases h
      rfl
    · rw [if_neg hb] at h
      cases h
  all_goals (cases h; rfl)

/-- C2 (amended): for every placement call whose confirm field is anything
but the literal true, the call fails, with the state (storage, trace, thus
any persisted quote) completely untouched; the error is the
confirmation-required one whenever the orderToken field passes its
non-empty-string validation — which the source checks first — and the
orderToken validation error otherwise. -/
theorem C2_confirm_gate (payload : JsVal) (env : Env) (s : St)
    (h : isTrueLit (getField payload "confirm") = false) :
    isOkE (placePizzaOrder payload env s).1 = false ∧
    (placePizzaOrder payload env s).2 = s ∧
    (isOkE (assertString (getField payload "orderToken") "orderToken") = true →
      (placePizzaOrder payload env s).1 =
        .error (.user "Refusing to place order: confirm must be true (explicit user confirmation required).")) ∧
    (isOkE (assertString (getField payload "orderToken") "orderToken") = false →
      (placePizzaOrder payload env s).1 =
        .error (.user "orderToken is required and must be a non-empty string.")) := by
  cases ht : assertString (getField payload "orderToken") "orderToken" with
  | error e =>
    obtain rfl := assertString_error_msg ht
    refine ⟨?_, ?_, ?_, ?_⟩ <;> simp [placePizzaOrder, ht, isOkE]
  | ok tok =>
    refine ⟨?_, ?_, ?_, ?_⟩ <;> simp [placePizzaOrder, ht, h, isOkE]

/-- Witness for C2 at `{orderToken: "tok", confirm: false}`. -/
theorem C2_confirm_gate_witness :
    isOkE (placePizzaOrder c2wPayload idleEnv baseSt).1 = false ∧
    (placePizzaOrder c2wPayload idleEnv baseSt).2 = baseSt ∧
    (isOkE (assertString (getField c2wPayload "orderToken") "orderToken") = true →
      (placePizzaOrder c2wPayload idleEnv baseSt).1 =
        .error (.user "Refusing to place order: confirm must be true (explicit user confirmation required).")) ∧
    (isOkE (assertString (getField c2wPayload "orderToken") "orderToken") = false →
      (placePizzaOrder c2wPayload idleEnv baseSt).1 =
        .error (.user "orderToken is required and must be a non-empty string.")) :=
  C2_confirm_gate c2wPayload idleEnv baseSt rfl

/-! ### C4 — expired quotes -/

/-- C4: with a valid token, confirm literally true, a stored record found for
the token, and its age strictly above the 30-minute TTL, placement deletes
the record, fails with the quote-expired error, and performs no upstream
call (the fetch counter is untouched and the trace gains only the storage
read and delete). -/
theorem C4_expired_quote (payload : JsVal) (env : Env) (s : St) (tok : String)
    (rec : StoredQuote)
    (htok : assertString (getField payload "orderToken") "orderToken" = .ok tok)
    (hconfirm : isTrueLit (getField payload "confirm") = true)
    (hlookup : (storageGetOp ("pizza:quote:" ++ tok) s).1 = some rec)
    (hexp : env.now - rec.createdAt > QUOTE_TTL_MS) :
    (placePizzaOrder payload env s).1 =
      .error (.user "That quote has expired. Please re-quote the order.") ∧
    (placePizzaOrder payload env s).2.store =
      s.store.filter (fun e => !(e.1 == "pizza:quote:" ++ tok)) ∧
    (placePizzaOrder payload env s).2.fetchCount = s.fetchCount ∧
    (placePizzaOrder payload env s).2.trace =
      s.trace ++ [.storageGet ("pizza:quote:" ++ tok), .storageDelete ("pizza:quote:" ++ tok)] := by
  have hlookup' : ((s.store.find? (fun e => e.1 == "pizza:quote:" ++ tok)).map
      (fun e => e.2)) = some rec := by
    simpa [storageGetOp] using hlookup
  refine ⟨?_, ?_, ?_, ?_⟩ <;>
    simp [placePizzaOrder, htok, hconfirm, storageGetOp, storageDeleteOp, hlookup', hexp]

/-- Witness for C4 at a concrete store holding one quote aged TTL+1 ms. -/
theorem C4_expired_quote_witness :
    (placePizzaOrder c4Payload c4Env c4St).1 =
      .error (.user "That quote has expired. Please re-quote the order.") ∧
    (placePizzaOrder c4Payload c4Env c4St).2.store =
      c4St.store.filter (fun e => !(e.1 == "pizza:quote:" ++ "tok")) ∧
    (placePizzaOrder c4Payload c4Env c4St).2.fetchCount = c4St.fetchCount ∧
    (placePizzaOrder c4Payload c4Env c4St).2.trace =
      c4St.trace ++ [.storageGet ("pizza:quote:" ++ "tok"), .storageDelete ("pizza:quote:" ++ "tok")] :=
  C4_expired_quote c4Payload c4Env c4St "tok" c4Quote rfl rfl rfl (by decide)

/-! ### C1 — quote deletion after a failed placement attempt (code bug) -/

/-- C1 (code bug): with a valid, unexpired token, `confirm` literally true and
the upstream place-order call raising, the `storage.delete` after the call is
never reached (there is no try/finally), so the quote record survives and the
same token is still retrievable: a second placement attempt reads it and
reaches place-order again. This contradicts the claimed unconditional
deletion (and the source's own comment "Cleanup draft after attempt (success
or not)"). -/
theorem C1_delete_skipped_on_upstream_failure :
    (placePizzaOrder c1Payload c1Env c1St).1 = .error (.request 500 .null) ∧
    (placePizzaOrder c1Payload c1Env c1St).2.store = [("pizza:quote:tok", c1Quote)] ∧
    (placePizzaOrder c1Payload c1Env (placePizzaOrder c1Payload c1Env c1St).2).2.trace =
      [.storageGet "pizza:quote:tok", .fetch "/power/place-order" (.str "draft"),
       .storageGet "pizza:quote:tok", .fetch "/power/place-order" (.str "draft")] :=
  ⟨rfl, rfl, rfl⟩

/-! ### C10 — a rejected quote writes nothing -/

/-- C10: whenever `quotePizzaOrder` resolves with the `ok:false` rejection
result, the persisted store is exactly what it was before the call, no
storage write was traced, and only the single order-id UUID was drawn — no
confirmation token was generated, so a rejected quote attempt can never later
be placed. -/
theorem C10_rejection_writes_nothing (payload : JsVal) (env : Env) (s : St)
    (h : isRejectedResult (quotePizzaOrder payload env s).1 = true) :
    (quotePizzaOrder payload env s).2.store = s.store ∧
    setKeys (quotePizzaOrder payload env s).2.trace = setKeys s.trace ∧
    (quotePizzaOrder payload env s).2.uuidCount = s.uuidCount + 1 := by
  unfold quotePizzaOrder at h ⊢
  cases hv : quoteValidate payload with
  | error e => simp [hv, isRejectedResult] at h
  | ok inp =>
    simp only [hv] at h ⊢
    unfold quotePipeline at h ⊢
    cases hf0 : env.fetchResults s.fetchCount with
    | error e => simp [callFetch, hf0, isRejectedResult] at h
    | ok locData =>
      cases hbs : findBestStore locData with
      | error e => simp [callFetch, hf0, hbs, isRejectedResult] at h
      | ok pr =>
        obtain ⟨storeId, store⟩ := pr
        cases hf1 : env.fetchResults (s.fetchCount + 1) with
        | error e =>
          simp [callFetch, freshUuid, hf0, hbs, hf1, isRejectedResult] at h
        | ok validated =>
          by_cases hrj : statusRejects (getField validated "Status")
          · simp [callFetch, freshUuid, hf0, hbs, hf1, hrj, setKeys,
              List.filterMap_append]
          · cases hf2 : env.fetchResults (s.fetchCount + 2) with
            | error e =>
              simp [callFetch, freshUuid, hf0, hbs, hf1, hf2, hrj,
                isRejectedResult] at h
            | ok priced =>
              simp [callFetch, freshUuid, storageSetOp, hf0, hbs, hf1, hf2, hrj,
                isRejectedResult] at h

/-- Witness for C10: a run whose validate-order response has status 1. -/
theorem C10_rejection_writes_nothing_witness :
    (quotePizzaOrder basePayload c10Env baseSt).2.store = baseSt.store ∧
    setKeys (quotePizzaOrder basePayload c10Env baseSt).2.trace = setKeys baseSt.trace ∧
    (quotePizzaOrder basePayload c10Env baseSt).2.uuidCount = baseSt.uuidCount + 1 :=
  C10_rejection_writes_nothing basePayload c10Env baseSt rfl

/-! ### C7 — structured validation rejection -/

/-- C7 counterexample: the validate-order response carries a Status field that
is present and is neither the number 0 nor the string "0" — the empty string
— yet the quote is NOT rejected: the pipeline goes on to call price-order and
succeeds, because the source requires Status to be *truthy*. -/
theorem C7_falsy_status_counterexample :
    hasField c7Validated "Status" = true ∧
    isNumZero (getField c7Validated "Status") = false ∧
    isStrZero (getField c7Validated "Status") = false ∧
    isRejectedResult (quotePizzaOrder basePayload c7Env baseSt).1 = false ∧
    isSuccessResult (quotePizzaOrder basePayload c7Env baseSt).1 = true ∧
    fetchPaths (quotePizzaOrder basePayload c7Env baseSt).2.trace =
      ["/power/store-locator", "/power/validate-order", "/power/price-order"] :=
  ⟨rfl, rfl, rfl, rfl, rfl, rfl⟩

/-- C7 (amended): whenever input validation passes, the store-locator call
succeeds and resolves a store, and the validate-order call returns a response
whose Status is truthy and neither 0 nor "0", the quote action *returns* (does
not throw) the structured rejection carrying step "validate-order", the
upstream status, the message (defaulted when absent) and the raw response;
price-order is never called, storage is unwritten, and only the order-id UUID
was drawn. -/
theorem C7_validation_rejection (payload : JsVal) (env : Env) (s : St)
    (inp : QuoteInputs) (locData validated : JsVal) (storeId : String) (store : JsVal)
    (hval : quoteValidate payload = .ok inp)
    (hloc : env.fetchResults s.fetchCount = .ok locData)
    (hstore : findBestStore locData = .ok (storeId, store))
    (hvresp : env.fetchResults (s.fetchCount + 1) = .ok validated)
    (hrej : statusRejects (getField validated "Status") = true) :
    (quotePizzaOrder payload env s).1 =
      .ok (.rejected "validate-order" (getField validated "Status")
        (jsOr (getField validated "Message") (.str "Order validation failed.")) validated) ∧
    (quotePizzaOrder payload env s).2.store = s.store ∧
    fetchPaths (quotePizzaOrder payload env s).2.trace =
      fetchPaths s.trace ++ ["/power/store-locator", "/power/validate-order"] ∧
    setKeys (quotePizzaOrder payload env s).2.trace = setKeys s.trace ∧
    (quotePizzaOrder payload env s).2.uuidCount = s.uuidCount + 1 := by
  unfold quotePizzaOrder quotePipeline
  refine ⟨?_, ?_, ?_, ?_, ?_⟩ <;>
    simp [hval, callFetch, freshUuid, hloc, hstore, hvresp, hrej, fetchPaths, setKeys,
      List.filterMap_append]

/-- Witness for C7 with validate-order status 1 ("Address not serviceable"). -/
theorem C7_validation_rejection_witness :
    (quotePizzaOrder basePayload c7bEnv baseSt).1 =
      .ok (.rejected "validate-order" (getField c10Validated "Status")
        (jsOr (getField c10Validated "Message") (.str "Order validation failed.")) c10Validated) ∧
    (quotePizzaOrder basePayload c7bEnv baseSt).2.store = baseSt.store ∧
    fetchPaths (quotePizzaOrder basePayload c7bEnv baseSt).2.trace =
      fetchPaths baseSt.trace ++ ["/power/store-locator", "/power/validate-order"] ∧
    setKeys (quotePizzaOrder basePayload c7bEnv baseSt).2.trace = setKeys baseSt.trace ∧
    (quotePizzaOrder basePayload c7bEnv baseSt).2.uuidCount = baseSt.uuidCount + 1 :=
  C7_validation_rejection basePayload c7bEnv baseSt _ _ _ _ _ rfl rfl rfl rfl rfl

/-! ### C3 — validation precedes all effects -/

theorem assertString_ok_shape {v : JsVal} {name t : String}
    (h : assertString v name = .ok t) :
    ∃ s, v = .str s ∧ t = jsTrim s ∧ jsTrim s ≠ "" := by
  cases v <;> simp only [assertString] at h <;> try cases h
  case str s =>
    by_cases hb : jsTrim s = ""
    · rw [if_pos hb] at h
      cases h
    · rw [if_neg hb] at h
      cases h
      exact ⟨s, rfl, rfl, hb⟩

theorem assertString_ok_inv {v : JsVal} {name t : String}
    (h : assertString v name = .ok t) : blankField v = false := by
  obtain ⟨s, rfl, -, hb⟩ := assertString_ok_shape h
  simp [blankField, hb]

theorem buildAddress_ok_inv {a b c r pc addr : JsVal}
    (h : buildAddress a b c r pc = .ok addr) :
    blankField a = false ∧ blankField c = false ∧ blankField r = false ∧
      blankField pc = false := by
  unfold buildAddress at h
  cases h1 : assertString a "addressLine1" with
  | error e => simp [h1] at h
  | ok line1 =>
    simp only [h1] at h
    cases h2 : assertString c "city" with
    | error e => simp [h2] at h
    | ok cv =>
      simp only [h2] at h
      cases h3 : assertString r "region" with
      | error e => simp [h3] at h
      | ok rv =>
        simp only [h3] at h
        cases h4 : assertString pc "postalCode" with
        | error e => simp [h4] at h
        | ok pv =>
          exact ⟨assertString_ok_inv h1, assertString_ok_inv h2,
            assertString_ok_inv h3, assertString_ok_inv h4⟩

theorem normalizeServiceMethod_ok_inv {v : JsVal} {sm : String}
    (h : normalizeServiceMethod v = .ok sm) :
    truthy v = false ∨
      jsToUpper (jsTrim (jsToString v)) = "DELIVERY" ∨
      jsToUpper (jsTrim (jsToString v)) = "CARRYOUT" := by
  by_cases ht : truthy v
  · right
    unfold normalizeServiceMethod at h
    rw [show jsOr v (.str "DELIVERY") = v from by simp [jsOr, ht]] at h
    by_cases h1 : jsToUpper (jsTrim (jsToString v)) = "DELIVERY"
    · exact Or.inl h1
    · by_cases h2 : jsToUpper (jsTrim (jsToString v)) = "CARRYOUT"
      · exact Or.inr h2
      · rw [if_neg h1, if_neg h2] at h
        cases h
  · exact Or.inl (by simpa using ht)

theorem safeJsonParse_ok_inv {s name : String} {v : JsVal}
    (h : safeJsonParse s name = .ok v) : jsonParse s = some v := by
  unfold safeJsonParse at h
  cases hj : jsonParse s with
  | none => simp [hj] at h
  | some w =>
    simp only [hj] at h
    cases h
    rfl

theorem buildProduct_ok_inv {idx : Nat} {p prod : JsVal}
    (h : buildProduct idx p = .ok prod) : badItem p = false := by
  unfold buildProduct at h
  by_cases h0 : !truthy p || !isObjectTy p
  · rw [if_pos h0] at h
    cases h
  · rw [if_neg h0] at h
    cases hc : getField p "Code" with
    | str c =>
      simp only [hc] at h
      by_cases hb : jsTrim c = ""
      · rw [if_pos hb] at h
        cases h
      · rw [if_neg hb] at h
        cases hq : toNumber (getField p "Qty") with
        | none => simp [hq] at h
        | some q =>
          simp only [hq] at h
          by_cases hp : q.nonPos
          · rw [if_pos (by simpa using hp)] at h
            cases h
          · simp [badItem, hc, hb, hq, hp]
    | null => simp [hc] at h
    | undefined => simp [hc] at h
    | bool b => simp [hc] at h
    | num q => simp [hc] at h
    | nan => simp [hc] at h
    | inf b => simp [hc] at h
    | arr xs => simp [hc] at h
    | obj fs => simp [hc] at h

theorem buildProductsGo_ok_inv :
    ∀ (idx : Nat) (l prods : List JsVal),
      buildProductsGo idx l = .ok prods → ∀ p ∈ l, badItem p = false := by
  intro idx l
  induction l generalizing idx with
  | nil =>
    intro prods h p hp
    cases hp
  | cons a t ih =>
    intro prods h p hp
    unfold buildProductsGo at h
    cases h1 : buildProduct idx a with
    | error e => simp [h1] at h
    | ok prod =>
      simp only [h1] at h
      cases h2 : buildProductsGo (idx + 1) t with
      | error e => simp [h2] at h
      | ok prods' =>
        rcases List.mem_cons.1 hp with rfl | hp'
        · exact buildProduct_ok_inv h1
        · exact ih (idx + 1) prods' h2 p hp'

theorem buildProducts_ok_inv {items : JsVal} {prods : List JsVal}
    (h : buildProducts items = .ok prods) :
    ∃ l, items = .arr l ∧ l ≠ [] ∧ ∀ p ∈ l, badItem p = false := by
  cases items <;> simp only [buildProducts] at h <;> try cases h
  case arr l =>
    by_cases hl : l.isEmpty
    · rw [if_pos hl] at h
      cases h
    · rw [if_neg hl] at h
      exact ⟨l, rfl, by simpa [List.isEmpty_iff] using hl,
        buildProductsGo_ok_inv 0 l prods h⟩

theorem quoteValidate_ok_inv {payload : JsVal} {inp : QuoteInputs}
    (h : quoteValidate payload = .ok inp) :
    (truthy (getField payload "serviceMethod") = false ∨
      jsToUpper (jsTrim (jsToString (getField payload "serviceMethod"))) = "DELIVERY" ∨
      jsToUpper (jsTrim (jsToString (getField payload "serviceMethod"))) = "CARRYOUT") ∧
    blankField (getField payload "addressLine1") = false ∧
    blankField (getField payload "city") = false ∧
    blankField (getField payload "region") = false ∧
    blankField (getField payload "postalCode") = false ∧
    blankField (getField payload "phone") = false ∧
    blankField (getField payload "email") = false ∧
    ∃ s l, getField payload "itemsJson" = .str s ∧
      jsonParse (jsTrim s) = some (.arr l) ∧ l ≠ [] ∧ ∀ p ∈ l, badItem p = false := by
  unfold quoteValidate at h
  cases h1 : normalizeServiceMethod (getField payload "serviceMethod") with
  | error e => simp [h1] at h
  | ok sm =>
    simp only [h1] at h
    cases h2 : buildAddress (getField payload "addressLine1") (getField payload "addressLine2")
        (getField payload "city") (getField payload "region") (getField payload "postalCode") with
    | error e => simp [h2] at h
    | ok addr =>
      simp only [h2] at h
      cases h3 : assertString (getField payload "phone") "phone" with
      | error e => simp [h3] at h
      | ok phone =>
        simp only [h3] at h
        cases h4 : assertString (getField payload "email") "email" with
        | error e => simp [h4] at h
        | ok email =>
          simp only [h4] at h
          cases h5 : assertString (getField payload "itemsJson") "itemsJson" with
          | error e => simp [h5] at h
          | ok itemsJson =>
            simp only [h5] at h
            cases h6 : safeJsonParse itemsJson "itemsJson" with
            | error e => simp [h6] at h
            | ok items =>
              simp only [h6] at h
              cases h7 : buildProducts items with
              | error e => simp [h7] at h
              | ok products =>
                obtain ⟨ba, bc, br, bpc⟩ := buildAddress_ok_inv h2
                obtain ⟨s, hfield, rfl, -⟩ := assertString_ok_shape h5
                obtain ⟨l, hitems, hlne, hbad⟩ := buildProducts_ok_inv h7
                refine ⟨normalizeServiceMethod_ok_inv h1, ba, bc, br, bpc,
                  assertString_ok_inv h3, assertString_ok_inv h4,
                  s, l, hfield, ?_, hlne, hbad⟩
                rw [← hitems]
                exact safeJsonParse_ok_inv h6

theorem assertString_error_user {v : JsVal} {name : String} {e : Err}
    (h : assertString v name = .error e) : ∃ m, e = .user m := by
  cases v <;> simp only [assertString] at h
  case str s =>
    by_cases hb : jsTrim s = ""
    · rw [if_pos hb] at h
      cases h
      exact ⟨_, rfl⟩
    · rw [if_neg hb] at h
      cases h
  all_goals (cases h; exact ⟨_, rfl⟩)

theorem normalizeServiceMethod_error_user {v : JsVal} {e : Err}
    (h : normalizeServiceMethod v = .error e) : ∃ m, e = .user m := by
  unfold normalizeServiceMethod at h
  by_cases h1 : jsToUpper (jsTrim (jsToString (jsOr v (.str "DELIVERY")))) = "DELIVERY"
  · rw [if_pos h1] at h
    cases h
  · rw [if_neg h1] at h
    by_cases h2 : jsToUpper (jsTrim (jsToString (jsOr v (.str "DELIVERY")))) = "CARRYOUT"
    · rw [if_pos h2] at h
      cases h
    · rw [if_neg h2] at h
      cases h
      exact ⟨_, rfl⟩

theorem buildAddress_error_user {a b c r pc : JsVal} {e : Err}
    (h : buildAddress a b c r pc = .error e) : ∃ m, e = .user m := by
  unfold buildAddress at h
  cases h1 : assertString a "addressLine1" with
  | error e1 =>
    simp only [h1] at h
    cases h
    exact assertString_error_user h1
  | ok line1 =>
    simp only [h1] at h
    cases h2 : assertString c "city" with
    | error e2 =>
      simp only [h2] at h
      cases h
      exact assertString_error_user h2
    | ok cv =>
      simp only [h2] at h
      cases h3 : assertString r "region" with
      | error e3 =>
        simp only [h3] at h
        cases h
        exact assertString_error_user h3
      | ok rv =>
        simp only [h3] at h
        cases h4 : assertString pc "postalCode" with
        | error e4 =>
          simp only [h4] at h
          cases h
          exact assertString_error_user h4
        | ok pv =>
          simp only [h4] at h
          cases h

theorem safeJsonParse_error_user {s name : String} {e : Err}
    (h : safeJsonParse s name = .error e) : ∃ m, e = .user m := by
  unfold safeJsonParse at h
  cases hj : jsonParse s with
  | none =>
    simp only [hj] at h
    cases h
    exact ⟨_, rfl⟩
  | some w =>
    simp only [hj] at h
    cases h

theorem buildProduct_error_user {idx : Nat} {p : JsVal} {e : Err}
    (h : buildProduct idx p = .error e) : ∃ m, e = .user m := by
  unfold buildProduct at h
  by_cases h0 : !truthy p || !isObjectTy p
  · rw [if_pos h0] at h
    cases h
    exact ⟨_, rfl⟩
  · rw [if_neg h0] at h
    cases hc : getField p "Code" with
    | str c =>
      simp only [hc] at h
      by_cases hb : jsTrim c = ""
      · rw [if_pos hb] at h
        cases h
        exact ⟨_, rfl⟩
      · rw [if_neg hb] at h
        cases hq : toNumber (getField p "Qty") with
        | none =>
          simp only [hq] at h
          cases h
          exact ⟨_, rfl⟩
        | some q =>
          simp only [hq] at h
          by_cases hp : q.nonPos
          · rw [if_pos (by simpa using hp)] at h
            cases h
            exact ⟨_, rfl⟩
          · rw [if_neg (by simpa using hp)] at h
            cases h
    | null => simp only [hc] at h; cases h; exact ⟨_, rfl⟩
    | undefined => simp only [hc] at h; cases h; exact ⟨_, rfl⟩
    | bool b => simp only [hc] at h; cases h; exact ⟨_, rfl⟩
    | num q => simp only [hc] at h; cases h; exact ⟨_, rfl⟩
    | nan => simp only [hc] at h; cases h; exact ⟨_, rfl⟩
    | inf b => simp only [hc] at h; cases h; exact ⟨_, rfl⟩
    | arr xs => simp only [hc] at h; cases h; exact ⟨_, rfl⟩
    | obj fs => simp only [hc] at h; cases h; exact ⟨_, rfl⟩

theorem buildProductsGo_error_user :
    ∀ (idx : Nat) (l : List JsVal) {e : Err},
      buildProductsGo idx l = .error e → ∃ m, e = .user m := by
  intro idx l
  induction l generalizing idx with
  | nil =>
    intro e h
    simp [buildProductsGo] at h
  | cons a t ih =>
    intro e h
    unfold buildProductsGo at h
    cases h1 : buildProduct idx a with
    | error e1 =>
      simp only [h1] at h
      cases h
      exact buildProduct_error_user h1
    | ok prod =>
      simp only [h1] at h
      cases h2 : buildProductsGo (idx + 1) t with
      | error e2 =>
        simp only [h2] at h
        cases h
        exact ih (idx + 1) h2
      | ok prods =>
        simp only [h2] at h
        cases h

theorem buildProducts_error_user {items : JsVal} {e : Err}
    (h : buildProducts items = .error e) : ∃ m, e = .user m := by
  cases items <;> simp only [buildProducts] at h
  case arr l =>
    by_cases hl : l.isEmpty
    · rw [if_pos hl] at h
      cases h
      exact ⟨_, rfl⟩
    · rw [if_neg hl] at h
      exact buildProductsGo_error_user 0 l h
  all_goals (cases h; exact ⟨_, rfl⟩)

theorem quoteValidate_error_user {payload : JsVal} {e : Err}
    (h : quoteValidate payload = .error e) : ∃ m, e = .user m := by
  unfold quoteValidate at h
  cases h1 : normalizeServiceMethod (getField payload "serviceMethod") with
  | error e1 =>
    simp only [h1] at h
    cases h
    exact normalizeServiceMethod_error_user h1
  | ok sm =>
    simp only [h1] at h
    cases h2 : buildAddress (getField payload "addressLine1") (getField payload "addressLine2")
        (getField payload "city") (getField payload "region") (getField payload "postalCode") with
    | error e2 =>
      simp only [h2] at h
      cases h
      exact buildAddress_error_user h2
    | ok addr =>
      simp only [h2] at h
      cases h3 : assertString (getField payload "phone") "phone" with
      | error e3 =>
        simp only [h3] at h
        cases h
        exact assertString_error_user h3
      | ok phone =>
        simp only [h3] at h
        cases h4 : assertString (getField payload "email") "email" with
        | error e4 =>
          simp only [h4] at h
          cases h
          exact assertString_error_user h4
        | ok email =>
          simp only [h4] at h
          cases h5 : assertString (getField payload "itemsJson") "itemsJson" with
          | error e5 =>
            simp only [h5] at h
            cases h
            exact assertString_error_user h5
          | ok itemsJson =>
            simp only [h5] at h
            cases h6 : safeJsonParse itemsJson "itemsJson" with
            | error e6 =>
              simp only [h6] at h
              cases h
              exact safeJsonParse_error_user h6
            | ok items =>
              simp only [h6] at h
              cases h7 : buildProducts items with
              | error e7 =>
                simp only [h7] at h
                cases h
                exact buildProducts_error_user h7
              | ok products =>
                simp only [h7] at h
                cases h

/-- C3: on every malformed quote input (any class the claim lists) the quote
action fails with a `UserError` and the state is returned untouched — no
store-locator, validate-order or price-order request and no storage write
ever happens. -/
theorem C3_validation_before_network (payload : JsVal) (env : Env) (s : St)
    (h : malformedQuotePayload payload) :
    isOkE (quotePizzaOrder payload env s).1 = false ∧
    isUserErrE (quotePizzaOrder payload env s).1 = true ∧
    (quotePizzaOrder payload env s).2 = s := by
  cases hv : quoteValidate payload with
  | error e =>
    obtain ⟨m, rfl⟩ := quoteValidate_error_user hv
    simp [quotePizzaOrder, hv, isOkE, isUserErrE]
  | ok inp =>
    exfalso
    obtain ⟨hsm, ha1, hc, hr, hpc, hph, hem, s', l, hfield, hparse, hlne, hbad⟩ :=
      quoteValidate_ok_inv hv
    rcases h with h | h | h | h | h | h | h | h | h | h
    · rw [h] at ha1; cases ha1
    · rw [h] at hc; cases hc
    · rw [h] at hr; cases hr
    · rw [h] at hpc; cases hpc
    · rw [h] at hph; cases hph
    · rw [h] at hem; cases hem
    · obtain ⟨t, hf2, hp2⟩ := h
      rw [hfield] at hf2
      cases hf2
      rw [hparse] at hp2
      cases hp2
    · obtain ⟨t, hf2, hp2⟩ := h
      rw [hfield] at hf2
      cases hf2
      rw [hparse] at hp2
      have : l = [] := by
        injection hp2 with hv2
        injection hv2
      exact hlne this
    · obtain ⟨t, l2, p, hf2, hp2, hmem, hbadp⟩ := h
      rw [hfield] at hf2
      cases hf2
      rw [hparse] at hp2
      have hll : l2 = l := by
        injection hp2 with hv2
        injection hv2 with hv3
        exact hv3.symm
      rw [hll] at hmem
      have := hbad p hmem
      rw [hbadp] at this
      cases this
    · obtain ⟨ht, hd, hcv⟩ := h
      rcases hsm with hsm | hsm | hsm
      · rw [ht] at hsm
        cases hsm
      · exact hd hsm
      · exact hcv hsm

/-- Witness for C3: a payload whose single line item has Qty 0 (non-positive)
fails purely, with the state untouched. -/
theorem C3_validation_before_network_witness :
    isOkE (quotePizzaOrder c3Payload idleEnv baseSt).1 = false ∧
    isUserErrE (quotePizzaOrder c3Payload idleEnv baseSt).1 = true ∧
    (quotePizzaOrder c3Payload idleEnv baseSt).2 = baseSt :=
  C3_validation_before_network c3Payload idleEnv baseSt
    (Or.inr (Or.inr (Or.inr (Or.inr (Or.inr (Or.inr (Or.inr (Or.inr (Or.inl
      ⟨"[\x7b\"Code\":\"14SCREEN\",\"Qty\":0\x7d]",
        [.obj [("Code", .str "14SCREEN"), ("Qty", .num ⟨0, 1⟩)]],
        .obj [("Code", .str "14SCREEN"), ("Qty", .num ⟨0, 1⟩)],
        rfl, rfl, by simp, rfl⟩)))))))))
